import Mathlib

/-!
Verification development for the KodoTerm terminal-session engine.

The definitions below are a shallow embedding of the C++ sources:
  - `KodoTermSession.cpp` (scrollback push/pop, `getCell`, selection,
    OSC-7 cwd tracking, `start`, log replay),
  - `KodoTermRenderer.cpp` (dirty-rectangle accumulation).

Machine integers are modelled as `Int` (no arithmetic in the embedded code
overflows), `std::deque<SavedLine>` as `List SavedLine` (front = oldest),
`QString`/`QByteArray` as `List Char`, and Qt signal emission as an explicit
list of `Emission` values returned next to the updated state.  The external
libvterm engine is modelled at its callback interface: the live screen is an
abstract cell-valued function, and the byte stream fed to
`vterm_input_write` is modelled by the list of callbacks it triggers.
-/

namespace KodoTerm

/-- `QString`/`QByteArray` content, modelled character by character. -/
abbrev QStr := List Char

/-- `VTERM_MAX_CHARS_PER_CELL` from the libvterm header. -/
def vtermMaxCharsPerCell : Nat := 6

/-- `KodoTermSession::SavedCell`: `chars` models the fixed
`uint32_t chars[VTERM_MAX_CHARS_PER_CELL]` array (code points, zero
terminated), `attrs`/`fg`/`bg` model the attribute bitset and the two
engine-native colors as opaque bit patterns, `width` the display width. -/
structure SavedCell where
  chars : List Nat
  attrs : Nat
  fg : Nat
  bg : Nat
  width : Int
deriving DecidableEq, Repr

/-- A cell whose whole storage is `memset` to zero with `width` then set
to 1 (the blank produced in `getCell` and `popScrollback`). -/
def blankCell : SavedCell :=
  ⟨List.replicate vtermMaxCharsPerCell 0, 0, 0, 0, 1⟩

/-- `using SavedLine = std::vector<SavedCell>`. -/
abbrev SavedLine := List SavedCell

/-- A `QRect` in cell coordinates: `QRect(x, y, w, h)`; Qt's
`right() = x + w - 1` and `bottom() = y + h - 1`. -/
structure QRectCells where
  x : Int
  y : Int
  w : Int
  h : Int
deriving DecidableEq, Repr

def rleft (r : QRectCells) : Int := r.x
def rtop (r : QRectCells) : Int := r.y
def rright (r : QRectCells) : Int := r.x + r.w - 1
def rbottom (r : QRectCells) : Int := r.y + r.h - 1

/-- A `VTermRect` as delivered by the engine's damage / move-rect
callbacks. -/
structure VTermRectM where
  start_row : Int
  start_col : Int
  end_row : Int
  end_col : Int
deriving DecidableEq, Repr

/-- The `QRect` the session builds from a `VTermRect` when emitting
`contentChanged` / `rectMoved`. -/
def vtermRectToQRect (r : VTermRectM) : QRectCells :=
  ⟨r.start_col, r.start_row, r.end_col - r.start_col, r.end_row - r.start_row⟩

/-- One Qt signal emission of `KodoTermSession`. -/
inductive Emission where
  | contentChanged (r : QRectCells)
  | rectMoved (dest src : QRectCells)
  | cursorMoved (row col : Int)
  | cursorVisibilityChanged (visible : Bool)
  | scrollbackChanged
  | bell
  | titleChanged (title : QStr)
  | cwdChanged (cwd : QStr)
  | propChanged
deriving DecidableEq, Repr

/-- The session-side state touched by the VT-engine callbacks: scrollback
store, alt-screen flag, configuration capacity, signal suppression flag,
OSC fragment buffer, tracked working directory and cursor/mouse state. -/
structure EngineState where
  scrollback : List SavedLine
  altScreen : Bool
  maxScrollback : Int
  suppressSignals : Bool
  oscBuffer : QStr
  cwd : QStr
  cursorRow : Int
  cursorCol : Int
  cursorVisible : Bool
  cursorBlink : Bool
  cursorShape : Int
  mouseMode : Int
deriving DecidableEq, Repr

/-- `KodoTermSession::pushScrollback(cols, cells)`.  The `cols` cells the
engine hands over are copied field by field into a fresh `SavedLine`
(modelled by passing the copied line directly), appended at the back of the
deque, and the front is popped when the size exceeds
`m_config.maxScrollback`.  Returns the updated state, the emitted signals
and the `int` return value. -/
def pushScrollback (st : EngineState) (line : SavedLine) :
    EngineState × List Emission × Int :=
  if st.altScreen then (st, [], 0)
  else
    let sb1 := st.scrollback ++ [line]
    let sb2 := if st.maxScrollback < (sb1.length : Int) then sb1.tail else sb1
    ({ st with scrollback := sb2 },
     if st.suppressSignals then [] else [Emission.scrollbackChanged], 1)

/-- `KodoTermSession::popScrollback(cols, cells)`.  `cells` is the engine's
output buffer of `cols` cells (its prior contents are whatever the engine
left there).  If the deque is empty the function returns 0 and the buffer
is left untouched; otherwise the back line's cells are copied into the
buffer up to `min cols line.size()`, the remaining cells are zeroed with
width 1, and the back line is popped. -/
def popScrollback (st : EngineState) (cols : Nat) (cells : List SavedCell) :
    EngineState × List SavedCell × List Emission × Int :=
  if st.scrollback.isEmpty then (st, cells, [], 0)
  else
    let line := st.scrollback.getLast?.getD []
    let n := min cols line.length
    let out := line.take n ++ List.replicate (cols - n) blankCell
    ({ st with scrollback := st.scrollback.dropLast }, out,
     if st.suppressSignals then [] else [Emission.scrollbackChanged], 1)

/-- Pushing a whole sequence of lines through the scrollback push
callback, in order. -/
def pushAll (st : EngineState) (lines : List SavedLine) : EngineState :=
  lines.foldl (fun s l => (pushScrollback s l).1) st

/-- `QChar::isSpace` on the characters relevant here (ASCII whitespace). -/
def isQtSpace (c : Char) : Bool :=
  c == ' ' || c == '\t' || c == '\n' || c == '\r' || c == '\x0b' || c == '\x0c'

/-- `QString::trimmed`: strip leading and trailing whitespace. -/
def qTrimmed (s : QStr) : QStr :=
  ((s.dropWhile isQtSpace).reverse.dropWhile isQtSpace).reverse

/-- `QString::startsWith pat` (first argument is the pattern). -/
def qStartsWith : QStr → QStr → Bool
  | [], _ => true
  | _ :: _, [] => false
  | p :: ps, c :: cs => p == c && qStartsWith ps cs

def fileUriScheme : QStr := ['f', 'i', 'l', 'e', ':', '/', '/']

/-- A `VTermStringFragment` delivered to the OSC fallback. -/
structure Fragment where
  str : QStr
  initial : Bool
  final : Bool
deriving DecidableEq, Repr

/-- `QUrl` is external to the repository; its behavior on `file://`
strings is abstracted by these three functions (`isLocalFile`,
`toLocalFile`, `path`). -/
structure UrlModel where
  isLocalFile : QStr → Bool
  toLocalFile : QStr → QStr
  urlPath : QStr → QStr

/-- `KodoTermSession::onOsc(command, frag, user)`: accumulate fragments in
`m_oscBuffer` (cleared on `frag.initial`), and on the final fragment of an
OSC 7 report parse the trimmed buffer: a `file://` URI is resolved through
`QUrl`, otherwise a nonempty string starting with `/` is used verbatim;
either way `m_cwd` is assigned and `cwdChanged` emitted unless signals are
suppressed. -/
def onOsc (um : UrlModel) (st : EngineState) (command : Int) (frag : Fragment) :
    EngineState × List Emission :=
  let buf := (if frag.initial then [] else st.oscBuffer) ++ frag.str
  if frag.final ∧ command = 7 then
    let s := qTrimmed buf
    if qStartsWith fileUriScheme s then
      let path := if um.isLocalFile s then um.toLocalFile s else um.urlPath s
      ({ st with oscBuffer := buf, cwd := path },
       if st.suppressSignals then [] else [Emission.cwdChanged path])
    else if (¬s.isEmpty) ∧ qStartsWith ['/'] s then
      ({ st with oscBuffer := buf, cwd := s },
       if st.suppressSignals then [] else [Emission.cwdChanged s])
    else ({ st with oscBuffer := buf }, [])
  else ({ st with oscBuffer := buf }, [])

/-- The `VTermProp` kinds distinguished by `onSetTermProp`. -/
inductive PropKind where
  | cursorVisibleK
  | cursorBlinkK
  | cursorShapeK
  | altScreenK
  | titleK
  | mouseK
  | otherK
deriving DecidableEq, Repr

/-- One callback invocation from the external VT engine, as triggered by
bytes written into `vterm_input_write` (or by `vterm_screen_reset`). -/
inductive VtermEvent where
  | damage (r : VTermRectM)
  | moveRect (dest src : VTermRectM)
  | moveCursor (row col : Int) (visible : Bool)
  | setProp (k : PropKind) (b : Bool) (n : Int) (s : QStr)
  | bellEvent
  | pushLine (line : SavedLine)
  | popLine (cols : Nat)
  | oscFrag (command : Int) (frag : Fragment)
deriving DecidableEq, Repr

/-- The state mutation of `onSetTermProp` for each `VTermProp` kind. -/
def setPropState (st : EngineState) (k : PropKind) (b : Bool) (n : Int) :
    EngineState :=
  match k with
  | .cursorVisibleK => { st with cursorVisible := b }
  | .cursorBlinkK => { st with cursorBlink := b }
  | .cursorShapeK => { st with cursorShape := n }
  | .altScreenK => { st with altScreen := b }
  | .mouseK => { st with mouseMode := n }
  | .titleK => st
  | .otherK => st

/-- The emissions of `onSetTermProp`: a kind-specific signal for cursor
visibility and title, then `propChanged`, all gated on
`m_suppressSignals`. -/
def setPropEmits (st : EngineState) (k : PropKind) (b : Bool) (s : QStr) :
    List Emission :=
  (match k with
   | .cursorVisibleK =>
       if st.suppressSignals then [] else [Emission.cursorVisibilityChanged b]
   | .titleK => if st.suppressSignals then [] else [Emission.titleChanged s]
   | .cursorBlinkK => []
   | .cursorShapeK => []
   | .altScreenK => []
   | .mouseK => []
   | .otherK => [])
  ++ (if st.suppressSignals then [] else [Emission.propChanged])

/-- Dispatch of one VT-engine callback to the session handlers
(`onDamage`, `onMoveRect`, `onMoveCursor`, `onSetTermProp`, `onBell`,
`onSbPushLine`, `onSbPopLine`, `onOsc`); each handler emits only when
`m_suppressSignals` is unset, exactly as in the source. -/
def applyEvent (um : UrlModel) (st : EngineState) :
    VtermEvent → EngineState × List Emission
  | .damage r =>
      (st, if st.suppressSignals then []
           else [Emission.contentChanged (vtermRectToQRect r)])
  | .moveRect d s =>
      (st, if st.suppressSignals then []
           else [Emission.rectMoved (vtermRectToQRect d) (vtermRectToQRect s)])
  | .moveCursor row col visible =>
      ({ st with cursorRow := row, cursorCol := col, cursorVisible := visible },
       if st.suppressSignals then [] else [Emission.cursorMoved row col])
  | .setProp k b n s => (setPropState st k b n, setPropEmits st k b s)
  | .bellEvent =>
      (st, if st.suppressSignals then [] else [Emission.bell])
  | .pushLine line =>
      let r := pushScrollback st line
      (r.1, r.2.1)
  | .popLine cols =>
      -- the engine's output buffer contents before the call are irrelevant
      -- to the session state and the emitted signals
      let r := popScrollback st cols (List.replicate cols blankCell)
      (r.1, r.2.2.1)
  | .oscFrag command frag => onOsc um st command frag

/-- All callbacks triggered by one chunk of bytes, in order. -/
def applyEvents (um : UrlModel) (st : EngineState) :
    List VtermEvent → EngineState × List Emission
  | [] => (st, [])
  | ev :: evs =>
      let r1 := applyEvent um st ev
      let r2 := applyEvents um r1.1 evs
      (r2.1, r1.2 ++ r2.2)

/-- The whole-session state needed by `start`, `resetTerminal` and
`processLogReplay`.  `hasPty` models `m_pty != nullptr`, `childSpawned`
models whether a child process was actually spawned, and the replay file
is modelled by the list of callback batches its remaining chunks trigger
(the text header is consumed silently before the first chunk). -/
structure Session where
  engine : EngineState
  hasPty : Bool
  childSpawned : Bool
  restoring : Bool
  pendingLogReplay : Option (List (List VtermEvent))
  replayFile : Option (List (List VtermEvent))
  rows : Int
  cols : Int

/-- `KodoTermSession::isRunning`: `m_pty != nullptr`. -/
def isRunning (s : Session) : Bool := s.hasPty

/-- `KodoTermSession::clearScrollback`: clears the deque and emits
`scrollbackChanged` unconditionally. -/
def clearScrollbackS (st : EngineState) : EngineState × List Emission :=
  ({ st with scrollback := [] }, [Emission.scrollbackChanged])

/-- `KodoTermSession::resetTerminal`: `vterm_screen_reset` (whose engine
callbacks are `resetEvents`), reset of the alt-screen/mouse/cursor flags,
`clearScrollback()` (which emits `scrollbackChanged`), then an
unconditional `contentChanged(QRect(0, 0, m_cols, m_rows))`. -/
def resetTerminalS (um : UrlModel) (s : Session) (resetEvents : List VtermEvent) :
    Session × List Emission :=
  let r1 := applyEvents um s.engine resetEvents
  let eng1 := { r1.1 with
    altScreen := false, mouseMode := 0, cursorVisible := true,
    cursorBlink := false, cursorShape := 1 }
  let r2 := clearScrollbackS eng1
  ({ s with engine := r2.1 },
   r1.2 ++ r2.2 ++ [Emission.contentChanged ⟨0, 0, s.cols, s.rows⟩])

/-- `KodoTermSession::start(reset)`.  The existing pty is killed and
deleted; if `reset` is set the terminal is reset (clearing scrollback);
`setupPty` creates a fresh `PtyProcess` (`createOk` models
`PtyProcess::create` returning non-null, which holds on every supported
platform); an empty program makes `start` return `false` right away;
otherwise the child is spawned (`spawnOk` models `m_pty->start`'s result,
covering exec and pty-allocation failures).  `none` marks the null-pointer
dereference the source would perform if `create` returned null with a
nonempty program.  Logging and the replay timer are orthogonal to the
claims settled here and are omitted. -/
def startModel (um : UrlModel) (s : Session) (reset programEmpty createOk spawnOk : Bool)
    (resetEvents : List VtermEvent) :
    Option (Session × List Emission × Bool) :=
  let s1 := { s with hasPty := false, childSpawned := false }
  let r2 := if reset then resetTerminalS um s1 resetEvents else (s1, [])
  let s3 := { r2.1 with hasPty := createOk }
  if programEmpty then some (s3, r2.2, false)
  else if createOk then some ({ s3 with childSpawned := spawnOk }, r2.2, spawnOk)
  else none

/-- One invocation of `KodoTermSession::processLogReplay`.  On first entry
(`m_replayFile` null, a pending path set) it raises `m_restoring` and
`m_suppressSignals`, calls `resetTerminal()`, opens the file (`openOk`)
and skips the header; in the same invocation it then reads one chunk: a
nonempty chunk is written into the VT engine (its callbacks fire with
signals suppressed) and the next invocation is scheduled, an empty read
closes the file, clears the two flags and emits `scrollbackChanged` plus a
full-rect `contentChanged`. -/
def processLogReplayStep (um : UrlModel) (s : Session)
    (resetEvents : List VtermEvent) (openOk : Bool) : Session × List Emission :=
  if s.pendingLogReplay = none ∧ s.replayFile = none then (s, [])
  else
    let r1 :=
      match s.replayFile with
      | some _ => (s, ([] : List Emission))
      | none =>
          let sA := { s with
            restoring := true,
            engine := { s.engine with suppressSignals := true } }
          let rB := resetTerminalS um sA resetEvents
          if openOk then
            ({ rB.1 with
                replayFile := rB.1.pendingLogReplay,
                pendingLogReplay := none }, rB.2)
          else
            ({ rB.1 with
                pendingLogReplay := none, restoring := false,
                engine := { rB.1.engine with suppressSignals := false } }, rB.2)
    match r1.1.replayFile with
    | none => r1
    | some chunks =>
        match chunks with
        | c :: rest =>
            let r2 := applyEvents um r1.1.engine c
            ({ r1.1 with engine := r2.1, replayFile := some rest },
             r1.2 ++ r2.2)
        | [] =>
            ({ r1.1 with
                replayFile := none, restoring := false,
                engine := { r1.1.engine with suppressSignals := false } },
             r1.2 ++ [Emission.scrollbackChanged,
                      Emission.contentChanged ⟨0, 0, r1.1.cols, r1.1.rows⟩])

/-- The deferred-rescheduling loop around `processLogReplay`: invocations
repeat (via the zero-delay timer) until neither a pending path nor an open
replay file remains; all emissions are concatenated in order. -/
def replayRun (um : UrlModel) : Nat → Session → List VtermEvent → Bool → List Emission
  | 0, _, _, _ => []
  | fuel + 1, s, resetEvents, openOk =>
      let r := processLogReplayStep um s resetEvents openOk
      if r.1.pendingLogReplay = none ∧ r.1.replayFile = none then r.2
      else r.2 ++ replayRun um fuel r.1 resetEvents openOk

/-- `KodoTermRenderer`'s dirty-rectangle accumulator: the `m_dirtyRect`
fields (a `VTermRect`) and the `m_dirty` flag. -/
structure RendererState where
  start_row : Int
  start_col : Int
  end_row : Int
  end_col : Int
  dirty : Bool
deriving DecidableEq, Repr

/-- `KodoTermRenderer::resetDirtyRect`: sentinel values 10000 / -1. -/
def resetDirtyRect (st : RendererState) : RendererState :=
  { st with start_row := 10000, start_col := 10000, end_row := -1, end_col := -1 }

/-- `KodoTermRenderer::noteDamage(rect)`: component-wise min/max against
the incoming rect's top/left/bottom/right, and set `m_dirty`. -/
def noteDamage (st : RendererState) (r : QRectCells) : RendererState :=
  { st with
    start_row := min st.start_row (rtop r),
    start_col := min st.start_col (rleft r),
    end_row := max st.end_row (rbottom r),
    end_col := max st.end_col (rright r),
    dirty := true }

/-- The bounding box of two rectangles, written from the claim's words
("a dirty rectangle equal to the bounding box of R1 ∪ R2") for comparison
with what `noteDamage` accumulates. -/
def boundingBoxDirty (r1 r2 : QRectCells) (dirty : Bool) : RendererState :=
  ⟨min (rtop r1) (rtop r2), min (rleft r1) (rleft r2),
   max (rbottom r1) (rbottom r2), max (rright r1) (rright r2), dirty⟩

/-- The read-model state used by `getCell` and `selectedText`: the
scrollback deque, the live dimensions, and the live screen as the abstract
content behind `vterm_screen_get_cell` (the engine is external; the cell
it reports at a live position is an arbitrary function of that position). -/
structure ScreenState where
  scrollback : List SavedLine
  rows : Int
  cols : Int
  screen : Int → Int → SavedCell

/-- Outcome of `getCell`.  `undefinedRead` marks the one path where the
source indexes a `SavedLine` with a negative column (`l[col]` with
`col < 0 ≤ l.size()` reads out of bounds and returns `true` with an
unspecified cell). -/
inductive GetCellResult where
  | notFound
  | found (cell : SavedCell)
  | undefinedRead
deriving DecidableEq, Repr

/-- `KodoTermSession::getCell(row, col, cell)`.  `row < scrollback.size()`
addresses history (negative rows are rejected; columns past the captured
line length produce a zeroed cell of width 1, `found`); otherwise
`row - scrollback.size()` addresses the live screen when it is within
`[0, m_rows)`, with the column forwarded to the engine unchecked; anything
else reports `notFound` (the `m_vtermScreen` null check never fires after
construction). -/
def getCell (st : ScreenState) (row col : Int) : GetCellResult :=
  let sb : Int := st.scrollback.length
  if row < sb then
    if row < 0 then GetCellResult.notFound
    else
      let l := st.scrollback.getD row.toNat []
      if col < (l.length : Int) then
        if 0 ≤ col then GetCellResult.found (l.getD col.toNat blankCell)
        else GetCellResult.undefinedRead
      else GetCellResult.found blankCell
  else
    let r := row - sb
    if 0 ≤ r ∧ r < st.rows then GetCellResult.found (st.screen r col)
    else GetCellResult.notFound

/-- A `QPoint` selection endpoint: `x` is the column, `y` the absolute
row, matching the source's use of `QPoint` for selections. -/
@[ext] structure Point where
  x : Int
  y : Int
deriving DecidableEq, Repr

/-- The two selection members of the session. -/
structure SelectionState where
  selStart : Point
  selEnd : Point
deriving DecidableEq, Repr

/-- `KodoTermSession::setSelection(start, end)`: store both points and
emit a full-rect `contentChanged`. -/
def setSelection (st : ScreenState) (s e : Point) : SelectionState × List Emission :=
  (⟨s, e⟩, [Emission.contentChanged ⟨0, 0, st.cols, st.rows⟩])

/-- The normalization both `selectedText` and `isSelected` perform: swap
the endpoints when the start compares greater by row, then column. -/
def normalizeSel (s e : Point) : Point × Point :=
  if s.y > e.y ∨ (s.y = e.y ∧ s.x > e.x) then (e, s) else (s, e)

/-- The code points appended for one cell: the `chars` array up to the
first zero entry. -/
def cellText (c : SavedCell) : List Nat :=
  c.chars.takeWhile (fun ch => ch ≠ 0)

/-- The inner column loop of `selectedText`, from column `c` to `endCol`:
a found cell contributes its code points and a width > 1 advances the
column past the wide cell; the fuel is an upper bound on the remaining
iterations (the column strictly increases each round).  On the source's
out-of-bounds path (`undefinedRead`) the appended characters are
unspecified, so the model appends none; either selection order visits the
same positions, keeping every theorem below faithful. -/
def collectCols (st : ScreenState) (r : Int) :
    Nat → Int → Int → List Nat
  | 0, _, _ => []
  | fuel + 1, c, endCol =>
      if endCol < c then []
      else
        match getCell st r c with
        | GetCellResult.found cell =>
            let skip : Int := if 1 < cell.width then cell.width - 1 else 0
            cellText cell ++ collectCols st r fuel (c + skip + 1) endCol
        | _ => collectCols st r fuel (c + 1) endCol

/-- The outer row loop of `selectedText`: rows `s.y` through `e.y`, with
the first row starting at `s.x`, the last ending at `e.x`, the others
spanning `0 .. m_cols - 1`; a newline (code point 10) separates rows. -/
def collectRows (st : ScreenState) (s e : Point) :
    Nat → Int → List Nat
  | 0, _ => []
  | fuel + 1, r =>
      let startCol := if r = s.y then s.x else 0
      let endCol := if r = e.y then e.x else st.cols - 1
      collectCols st r (endCol + 1 - startCol).toNat startCol endCol
        ++ (if r < e.y then [10] else [])
        ++ collectRows st s e fuel (r + 1)

/-- `KodoTermSession::selectedText()`: empty when either endpoint carries
the `x = -1` sentinel; otherwise normalize the endpoints and walk the row
range, returning the concatenated code points. -/
def selectedText (st : ScreenState) (sel : SelectionState) : List Nat :=
  if sel.selStart.x = -1 ∨ sel.selEnd.x = -1 then []
  else
    let p := normalizeSel sel.selStart sel.selEnd
    collectRows st p.1 p.2 (p.2.y + 1 - p.1.y).toNat p.1.y

/-! Concrete inputs used by counterexamples and witnesses. -/

/-- A visible cell holding the single code point 65. -/
def cellA : SavedCell := ⟨[65, 0, 0, 0, 0, 0], 0, 0, 0, 1⟩

/-- A fresh engine state with the default capacity 1000. -/
def engFresh : EngineState :=
  ⟨[], false, 1000, false, [], [], 0, 0, true, false, 1, 0⟩

/-- A trivial `QUrl` model for concrete runs. -/
def umId : UrlModel := ⟨fun _ => false, fun s => s, fun s => s⟩

/-- The value `getCell` reports for a history row: the stored cell when
the column is inside the captured line, a zeroed width-1 cell past its
end. -/
def histCellAt (st : ScreenState) (row col : Int) : SavedCell :=
  let l := st.scrollback.getD row.toNat []
  if col < (l.length : Int) then l.getD col.toNat blankCell else blankCell

/-- A two-cell history line used by concrete `getCell` runs. -/
def lineAA : SavedLine := [cellA, cellA]

/-- A tiny read-model state: one history line of two cells, a 1×2 live
screen that is all blank. -/
def scr1 : ScreenState := ⟨[lineAA], 1, 2, fun _ _ => blankCell⟩

/-- A session that has never been started, with one line already in
scrollback (e.g. left over from a previous run restored state). -/
def sess0 : Session :=
  ⟨{ engFresh with scrollback := [[cellA]] }, false, false, false, none, none, 24, 80⟩

/-- A self-contained OSC 7 fragment reporting the absolute path `/home`. -/
def fragSlash : Fragment := ⟨['/', 'h', 'o', 'm', 'e'], true, true⟩

/-- A 1×2 live screen whose cells all hold the code point 65, with empty
scrollback. -/
def scrW : ScreenState := ⟨[], 1, 2, fun _ _ => cellA⟩

/-- A session about to replay a one-chunk log whose bytes trigger a single
damage callback. -/
def sessReplay : Session :=
  ⟨engFresh, false, false, false,
   some [[VtermEvent.damage ⟨0, 0, 1, 1⟩]], none, 24, 80⟩

/-! ### Helper lemmas -/

theorem pushScrollback_noAlt (st : EngineState) (l : SavedLine)
    (hA : st.altScreen = false) :
    (pushScrollback st l).1
      = { st with scrollback :=
            if st.maxScrollback < ((st.scrollback ++ [l]).length : Int)
            then (st.scrollback ++ [l]).tail else st.scrollback ++ [l] } := by
  simp [pushScrollback, hA]

theorem pushAll_cons (st : EngineState) (l : SavedLine) (ls : List SavedLine) :
    pushAll st (l :: ls) = pushAll (pushScrollback st l).1 ls := rfl

theorem pushAll_drop (lines : List SavedLine) :
    ∀ st : EngineState, st.altScreen = false → 0 ≤ st.maxScrollback →
      (st.scrollback.length : Int) ≤ st.maxScrollback →
      (pushAll st lines).scrollback
        = (st.scrollback ++ lines).drop
            (st.scrollback.length + lines.length - st.maxScrollback.toNat) := by
  induction lines with
  | nil =>
      intro st hA hC hlen
      have h0 : st.scrollback.length - st.maxScrollback.toNat = 0 := by omega
      simp [pushAll, h0]
  | cons l ls ih =>
      intro st hA hC hlen
      rw [pushAll_cons, pushScrollback_noAlt st l hA]
      by_cases hev : st.maxScrollback < ((st.scrollback ++ [l]).length : Int)
      · simp only [if_pos hev]
        have hKlen : st.maxScrollback.toNat = st.scrollback.length := by
          simp only [List.length_append, List.length_singleton, List.length_cons,
            List.length_nil] at hev
          omega
        have hlen' : ((((st.scrollback ++ [l]).tail).length : Int))
            ≤ st.maxScrollback := by
          simp only [List.length_tail, List.length_append, List.length_singleton,
            List.length_cons, List.length_nil]
          omega
        have h := ih { st with scrollback := (st.scrollback ++ [l]).tail } hA hC hlen'
        dsimp only at h
        rw [h]
        cases hsb : st.scrollback with
        | nil =>
            rw [hsb] at hKlen
            simp only [List.length_nil] at hKlen
            simp [hKlen, List.drop_length]
        | cons a sb' =>
            rw [hsb] at hKlen
            simp only [List.length_cons] at hKlen
            have hn1 : ((a :: sb') ++ [l]).tail.length + ls.length
                - st.maxScrollback.toNat = ls.length := by
              simp only [List.cons_append, List.tail_cons, List.length_append,
                List.length_singleton, List.length_cons, List.length_nil]
              omega
            have hn2 : (a :: sb').length + (l :: ls).length
                - st.maxScrollback.toNat = ls.length + 1 := by
              simp only [List.length_cons]
              omega
            rw [hn1, hn2]
            simp only [List.cons_append, List.tail_cons, List.drop_succ_cons,
              List.append_assoc, List.singleton_append, List.nil_append]
      · simp only [if_neg hev]
        have hlen' : (((st.scrollback ++ [l]).length : Int)) ≤ st.maxScrollback := by
          omega
        have h := ih { st with scrollback := st.scrollback ++ [l] } hA hC hlen'
        dsimp only at h
        rw [h]
        have harith : (st.scrollback ++ [l]).length + ls.length
              - st.maxScrollback.toNat
            = st.scrollback.length + (l :: ls).length - st.maxScrollback.toNat := by
          simp only [List.length_append, List.length_singleton, List.length_cons,
            List.length_nil]
          omega
        rw [harith, List.append_assoc, List.singleton_append]

/-! ### Claim theorems -/

/-- Claim C1 (confirmed).  From an empty scrollback store with capacity
`C = maxScrollback ≥ 0` and the alternate screen inactive, pushing any
sequence of `N` lines leaves the store holding exactly `min N C` lines,
namely the most recent `min N C` pushed lines in push order (the suffix
`lines.drop (N - C)`); since the state holds nothing else, the oldest
`N - C` lines are no longer retrievable when `N > C`. -/
theorem pushAll_scrollback_bound (st : EngineState) (lines : List SavedLine)
    (hEmpty : st.scrollback = []) (hAlt : st.altScreen = false)
    (hC : 0 ≤ st.maxScrollback) :
    (pushAll st lines).scrollback
        = lines.drop (lines.length - st.maxScrollback.toNat)
    ∧ (pushAll st lines).scrollback.length
        = min lines.length st.maxScrollback.toNat := by
  have h := pushAll_drop lines st hAlt hC (by rw [hEmpty]; simpa using hC)
  rw [hEmpty] at h
  simp only [List.nil_append, List.length_nil, Nat.zero_add] at h
  refine ⟨h, ?_⟩
  rw [h, List.length_drop]
  omega

/-- Witness for C1: capacity 2, three pushed lines; the store retains the
last two in order. -/
theorem pushAll_scrollback_bound_witness :
    ({ engFresh with maxScrollback := 2 } : EngineState).scrollback = []
    ∧ ({ engFresh with maxScrollback := 2 } : EngineState).altScreen = false
    ∧ 0 ≤ ({ engFresh with maxScrollback := 2 } : EngineState).maxScrollback
    ∧ ((pushAll { engFresh with maxScrollback := 2 } [[cellA], [], [blankCell]]).scrollback
          = [[cellA], [], [blankCell]].drop
              (([[cellA], [], [blankCell]] : List SavedLine).length
                - ({ engFresh with maxScrollback := 2 } : EngineState).maxScrollback.toNat)
        ∧ (pushAll { engFresh with maxScrollback := 2 }
              [[cellA], [], [blankCell]]).scrollback.length
          = min ([[cellA], [], [blankCell]] : List SavedLine).length
              ({ engFresh with maxScrollback := 2 } : EngineState).maxScrollback.toNat) :=
  ⟨rfl, rfl, by decide,
   pushAll_scrollback_bound { engFresh with maxScrollback := 2 }
     [[cellA], [], [blankCell]] rfl rfl (by decide)⟩

/-- Claim C3 counterexample.  With the alternate screen inactive and the
store already at capacity (`maxScrollback = 1` holding one line) — a state
reachable by pushing one line before the alt screen was ever entered — a
push callback does not increase the scrollback size: the oldest line is
evicted and the size stays at capacity. -/
theorem pushScrollback_at_capacity_no_increase :
    ¬ ((pushScrollback { engFresh with maxScrollback := 1, scrollback := [[cellA]] }
          [blankCell]).1.scrollback.length
        > ({ engFresh with
              maxScrollback := 1,
              scrollback := [[cellA]] } : EngineState).scrollback.length) := by
  decide

/-- Claim C3 (corrected).  A push callback while the alternate screen is
active leaves the whole engine state (in particular the scrollback store's
size and contents) unchanged and emits nothing; after the alternate screen
is deactivated, a push callback increases the scrollback size again
provided the store is below capacity (at capacity the size stays put and
the oldest line is evicted, see the counterexample). -/
theorem pushScrollback_alt_isolation (st : EngineState) (line : SavedLine) :
    (st.altScreen = true → pushScrollback st line = (st, [], 0))
    ∧ (st.altScreen = false → (st.scrollback.length : Int) < st.maxScrollback →
        (pushScrollback st line).1.scrollback = st.scrollback ++ [line]
        ∧ (pushScrollback st line).1.scrollback.length
            = st.scrollback.length + 1) := by
  constructor
  · intro hA
    simp [pushScrollback, hA]
  · intro hA hlt
    have hcond : ¬ (st.maxScrollback < (st.scrollback.length : Int) + 1) := by
      omega
    simp [pushScrollback, hA, hcond]

/-- Witness for C3's amended theorem: an alt-screen push is the identity,
and a primary-screen push below capacity grows the store by one line. -/
theorem pushScrollback_alt_isolation_witness :
    (({ engFresh with altScreen := true } : EngineState).altScreen = true
      ∧ pushScrollback { engFresh with altScreen := true } [cellA]
          = ({ engFresh with altScreen := true }, [], 0))
    ∧ (engFresh.altScreen = false
      ∧ (engFresh.scrollback.length : Int) < engFresh.maxScrollback
      ∧ ((pushScrollback engFresh [cellA]).1.scrollback
            = engFresh.scrollback ++ [[cellA]]
        ∧ (pushScrollback engFresh [cellA]).1.scrollback.length
            = engFresh.scrollback.length + 1)) :=
  ⟨⟨rfl, (pushScrollback_alt_isolation { engFresh with altScreen := true } [cellA]).1 rfl⟩,
   rfl, by decide,
   (pushScrollback_alt_isolation engFresh [cellA]).2 rfl (by decide)⟩

/-- Claim C4 counterexample.  Popping from an empty scrollback store does
not hand the engine a blank line: the output cell array is left exactly as
it was (here still holding a non-blank cell) and the callback returns 0,
refuting "the output cell array is filled with blank cells". -/
theorem popScrollback_empty_not_blank_filled :
    engFresh.scrollback = []
    ∧ ¬ ((popScrollback engFresh 1 [cellA]).2.1 = List.replicate 1 blankCell)
    ∧ (popScrollback engFresh 1 [cellA]).2.2.2 = 0 := by
  decide

/-- Claim C4 (corrected).  When the store is empty `popScrollback` returns
0 immediately — never blocking and leaving the output buffer untouched (in
libvterm a 0 return tells the engine no line is available, and the engine
itself supplies the blank line).  When the store is non-empty the most
recent `SavedLine` is removed from the tail, its cells are copied to the
output up to `min cols length`, the remaining columns are zero-filled with
width 1, and the callback returns 1. -/
theorem popScrollback_amended (st : EngineState) (cols : Nat)
    (cells : List SavedCell) :
    (st.scrollback = [] → popScrollback st cols cells = (st, cells, [], 0))
    ∧ (st.scrollback ≠ [] →
        (popScrollback st cols cells).1.scrollback = st.scrollback.dropLast
        ∧ (popScrollback st cols cells).2.1
            = (st.scrollback.getLast?.getD []).take
                (min cols (st.scrollback.getLast?.getD []).length)
              ++ List.replicate
                  (cols - min cols (st.scrollback.getLast?.getD []).length)
                  blankCell
        ∧ (popScrollback st cols cells).2.2.2 = 1) := by
  constructor
  · intro h
    simp [popScrollback, h]
  · intro h
    have hne : st.scrollback.isEmpty = false := by
      simpa [List.isEmpty_iff] using h
    simp [popScrollback, hne]

/-- Witness for C4's amended theorem: an empty pop leaves the buffer as it
was with return 0; a non-empty pop of a one-cell line into a two-column
buffer copies the cell, pads one blank and pops the line. -/
theorem popScrollback_amended_witness :
    (engFresh.scrollback = []
      ∧ popScrollback engFresh 1 [cellA] = (engFresh, [cellA], [], 0))
    ∧ (({ engFresh with scrollback := [[cellA]] } : EngineState).scrollback ≠ []
      ∧ ((popScrollback { engFresh with scrollback := [[cellA]] } 2
            [blankCell, blankCell]).1.scrollback
          = ({ engFresh with scrollback := [[cellA]] } : EngineState).scrollback.dropLast
        ∧ (popScrollback { engFresh with scrollback := [[cellA]] } 2
            [blankCell, blankCell]).2.1
          = (({ engFresh with scrollback := [[cellA]] } : EngineState).scrollback.getLast?.getD []).take
              (min 2 (({ engFresh with scrollback := [[cellA]] } : EngineState).scrollback.getLast?.getD []).length)
            ++ List.replicate
                (2 - min 2 (({ engFresh with scrollback := [[cellA]] } : EngineState).scrollback.getLast?.getD []).length)
                blankCell
        ∧ (popScrollback { engFresh with scrollback := [[cellA]] } 2
            [blankCell, blankCell]).2.2.2 = 1)) :=
  ⟨⟨rfl, (popScrollback_amended engFresh 1 [cellA]).1 rfl⟩,
   by decide,
   (popScrollback_amended { engFresh with scrollback := [[cellA]] } 2
     [blankCell, blankCell]).2 (by decide)⟩

/-- Claim C2 counterexample.  `getCell(0, 5)` on a state whose history
row 0 holds only two cells (and whose column range is [0, 2)) returns
found = true with a blank cell, not "not found": columns are never
range-checked, refuting "every out-of-range request (row or column
outside the valid range) returns not-found". -/
theorem getCell_out_of_range_col_found :
    getCell scr1 0 5 = GetCellResult.found blankCell
    ∧ ¬ (getCell scr1 0 5 = GetCellResult.notFound) := by
  decide

/-- Claim C2 (corrected).  Row addressing is exactly as claimed: negative
rows and rows at or past `scrollbackSize + liveRows` report not-found,
rows in `[0, scrollbackSize)` resolve into history and rows in
`[scrollbackSize, scrollbackSize + liveRows)` return the live-screen cell
of row `row - scrollbackSize`.  Columns, however, are never range-checked:
a history lookup at a non-negative column yields found = true (with a
blank cell past the captured length; a negative column makes the source
read out of bounds), and live-screen lookups forward the column to the
engine unchecked. -/
theorem getCell_characterization (st : ScreenState) (row col : Int) :
    (row < 0 → getCell st row col = GetCellResult.notFound)
    ∧ (0 ≤ st.rows → (st.scrollback.length : Int) + st.rows ≤ row →
        getCell st row col = GetCellResult.notFound)
    ∧ (0 ≤ row → row < (st.scrollback.length : Int) → 0 ≤ col →
        getCell st row col = GetCellResult.found (histCellAt st row col))
    ∧ ((st.scrollback.length : Int) ≤ row →
        row < (st.scrollback.length : Int) + st.rows →
        getCell st row col
          = GetCellResult.found (st.screen (row - st.scrollback.length) col)) := by
  refine ⟨?_, ?_, ?_, ?_⟩
  · intro h
    have hlt : row < (st.scrollback.length : Int) := by omega
    simp only [getCell]
    rw [if_pos hlt, if_pos h]
  · intro hr h
    have hge : ¬ row < (st.scrollback.length : Int) := by omega
    simp only [getCell]
    rw [if_neg hge, if_neg (by omega : ¬ (0 ≤ row - (st.scrollback.length : Int)
      ∧ row - (st.scrollback.length : Int) < st.rows))]
  · intro h0 h1 hc
    simp only [getCell, histCellAt]
    rw [if_pos h1, if_neg (by omega : ¬ row < 0)]
    by_cases hcl : col < (((st.scrollback.getD row.toNat []).length : Nat) : Int)
    · rw [if_pos hcl, if_pos hc, if_pos hcl]
    · rw [if_neg hcl, if_neg hcl]
  · intro h1 h2
    have hge : ¬ row < (st.scrollback.length : Int) := by omega
    simp only [getCell]
    rw [if_neg hge, if_pos (by omega : 0 ≤ row - (st.scrollback.length : Int)
      ∧ row - (st.scrollback.length : Int) < st.rows)]

/-- Witness for C2's amended theorem: on `scr1`, row -1 and row 2 report
not-found, history row 0 column 1 yields its stored cell, live row 1
yields the screen cell. -/
theorem getCell_characterization_witness :
    ((-1 : Int) < 0 ∧ getCell scr1 (-1) 0 = GetCellResult.notFound)
    ∧ ((0 : Int) ≤ scr1.rows ∧ (scr1.scrollback.length : Int) + scr1.rows ≤ 2
      ∧ getCell scr1 2 0 = GetCellResult.notFound)
    ∧ ((0 : Int) ≤ 0 ∧ (0 : Int) < (scr1.scrollback.length : Int) ∧ (0 : Int) ≤ 1
      ∧ getCell scr1 0 1 = GetCellResult.found (histCellAt scr1 0 1))
    ∧ ((scr1.scrollback.length : Int) ≤ 1
      ∧ (1 : Int) < (scr1.scrollback.length : Int) + scr1.rows
      ∧ getCell scr1 1 0
          = GetCellResult.found (scr1.screen (1 - scr1.scrollback.length) 0)) :=
  ⟨⟨by decide, (getCell_characterization scr1 (-1) 0).1 (by decide)⟩,
   ⟨by decide, by decide,
    (getCell_characterization scr1 2 0).2.1 (by decide) (by decide)⟩,
   ⟨by decide, by decide, by decide,
    (getCell_characterization scr1 0 1).2.2.1 (by decide) (by decide) (by decide)⟩,
   ⟨by decide, by decide,
    (getCell_characterization scr1 1 0).2.2.2 (by decide) (by decide)⟩⟩

/-- Claim C10 (confirmed).  For any scrollback row and any column at or
past the captured line's length, `getCell` reports found = true with the
blank-padded cell: every code point zero and width 1. -/
theorem getCell_blank_padded_history (st : ScreenState) (row col : Int)
    (h0 : 0 ≤ row) (h1 : row < (st.scrollback.length : Int))
    (h2 : ((st.scrollback.getD row.toNat []).length : Int) ≤ col) :
    getCell st row col = GetCellResult.found blankCell
    ∧ blankCell.chars = List.replicate vtermMaxCharsPerCell 0
    ∧ blankCell.width = 1 := by
  refine ⟨?_, rfl, rfl⟩
  simp only [getCell]
  rw [if_pos h1, if_neg (by omega : ¬ row < 0),
    if_neg (by omega : ¬ col < (((st.scrollback.getD row.toNat []).length : Nat) : Int))]

/-- Witness for C10: on `scr1`, history row 0 (two cells long) at column 3
yields the blank cell. -/
theorem getCell_blank_padded_history_witness :
    ((0 : Int) ≤ 0 ∧ (0 : Int) < (scr1.scrollback.length : Int)
      ∧ ((scr1.scrollback.getD (0 : Int).toNat []).length : Int) ≤ 3)
    ∧ (getCell scr1 0 3 = GetCellResult.found blankCell
      ∧ blankCell.chars = List.replicate vtermMaxCharsPerCell 0
      ∧ blankCell.width = 1) :=
  ⟨⟨by decide, by decide, by decide⟩,
   getCell_blank_padded_history scr1 0 3 (by decide) (by decide) (by decide)⟩

/-- Claim C9 counterexample.  From a freshly reset render cache, noting
the rectangle `QRect(20000, 20000, 1, 1)` twice leaves `start_row` at the
reset sentinel 10000 instead of the bounding-box top 20000 (and `end_row`
is computed against the sentinel -1 likewise): the accumulated dirty rect
is not the bounding box for arbitrary rectangles. -/
theorem noteDamage_sentinel_counterexample :
    ¬ (noteDamage (noteDamage (resetDirtyRect ⟨0, 0, 0, 0, false⟩)
          ⟨20000, 20000, 1, 1⟩) ⟨20000, 20000, 1, 1⟩
        = boundingBoxDirty ⟨20000, 20000, 1, 1⟩ ⟨20000, 20000, 1, 1⟩ true) := by
  decide

/-- Claim C9 (corrected).  Starting from a reset dirty rect, noting R1
then R2 accumulates exactly the bounding box of R1 ∪ R2 (and raises the
dirty flag) provided the first rect lies within the reset sentinels — its
top/left at most 10000 and bottom/right at least -1, true of every damage
rect of a real cell grid; and the accumulated state never depends on the
order of the two rects. -/
theorem noteDamage_coalesce (st : RendererState) (r1 r2 : QRectCells)
    (h1 : rtop r1 ≤ 10000) (h2 : rleft r1 ≤ 10000)
    (h3 : -1 ≤ rbottom r1) (h4 : -1 ≤ rright r1) :
    noteDamage (noteDamage (resetDirtyRect st) r1) r2
        = boundingBoxDirty r1 r2 true
    ∧ noteDamage (noteDamage (resetDirtyRect st) r1) r2
        = noteDamage (noteDamage (resetDirtyRect st) r2) r1 := by
  constructor
  · simp only [noteDamage, resetDirtyRect, boundingBoxDirty, rtop, rleft,
      rbottom, rright, RendererState.mk.injEq]
    refine ⟨?_, ?_, ?_, ?_, trivial⟩ <;> simp only [rtop, rleft, rbottom, rright] at * <;> omega
  · simp only [noteDamage, resetDirtyRect, RendererState.mk.injEq]
    refine ⟨?_, ?_, ?_, ?_, trivial⟩ <;> omega

/-- Witness for C9's amended theorem at two concrete in-bounds rects. -/
theorem noteDamage_coalesce_witness :
    (rtop ⟨1, 2, 3, 4⟩ ≤ 10000 ∧ rleft ⟨1, 2, 3, 4⟩ ≤ 10000
      ∧ (-1 : Int) ≤ rbottom ⟨1, 2, 3, 4⟩ ∧ (-1 : Int) ≤ rright ⟨1, 2, 3, 4⟩)
    ∧ (noteDamage (noteDamage (resetDirtyRect ⟨0, 0, 0, 0, false⟩) ⟨1, 2, 3, 4⟩)
          ⟨7, 0, 2, 2⟩
        = boundingBoxDirty ⟨1, 2, 3, 4⟩ ⟨7, 0, 2, 2⟩ true
      ∧ noteDamage (noteDamage (resetDirtyRect ⟨0, 0, 0, 0, false⟩) ⟨1, 2, 3, 4⟩)
          ⟨7, 0, 2, 2⟩
        = noteDamage (noteDamage (resetDirtyRect ⟨0, 0, 0, 0, false⟩) ⟨7, 0, 2, 2⟩)
          ⟨1, 2, 3, 4⟩) :=
  ⟨⟨by decide, by decide, by decide, by decide⟩,
   noteDamage_coalesce ⟨0, 0, 0, 0, false⟩ ⟨1, 2, 3, 4⟩ ⟨7, 0, 2, 2⟩
     (by decide) (by decide) (by decide) (by decide)⟩

/-- Claim C5 counterexample.  Calling `start` on `sess0` with an empty
program (and `reset = true`) returns `false`, yet the session is not
observationally identical to its pre-start state: `isRunning()` now
reports `true` (the freshly created `PtyProcess` object is kept alive) and
the scrollback — `[[cellA]]` before the call — has been cleared by the
reset that ran before the program check. -/
theorem start_failed_isRunning_true :
    (startModel umId sess0 true true true true []).map
        (fun out => (out.2.2, isRunning out.1, out.1.engine.scrollback))
      = some (false, true, ([] : List SavedLine))
    ∧ isRunning sess0 = false
    ∧ sess0.engine.scrollback = [[cellA]] := by
  decide

/-- Claim C5 (corrected).  `start` does report every spawn failure
synchronously as `false` (empty program, or `PtyProcess::start` failing on
exec / pty allocation), but partial session state is retained: the freshly
created `PtyProcess` object is kept, so `isRunning()` reports `true`
although no child was spawned, and when `reset` was requested the
terminal reset (including the scrollback clear) has already happened.  A
null `PtyProcess::create` result with a nonempty program would be a null
dereference (`none` below); it cannot occur on supported platforms. -/
theorem startModel_failure_partial_state (um : UrlModel) (s : Session)
    (reset spawnOk : Bool) (resetEvents : List VtermEvent) :
    (∃ s1 es, startModel um s reset true true spawnOk resetEvents
          = some (s1, es, false)
      ∧ isRunning s1 = true ∧ s1.childSpawned = false
      ∧ s1.engine.scrollback = (if reset then [] else s.engine.scrollback))
    ∧ (∃ s2 es2, startModel um s reset false true false resetEvents
          = some (s2, es2, false)
      ∧ isRunning s2 = true ∧ s2.childSpawned = false
      ∧ s2.engine.scrollback = (if reset then [] else s.engine.scrollback)) := by
  cases reset with
  | false =>
      exact ⟨⟨_, _, rfl, rfl, rfl, rfl⟩, ⟨_, _, rfl, rfl, rfl, rfl⟩⟩
  | true =>
      exact ⟨⟨_, _, rfl, rfl, rfl, rfl⟩, ⟨_, _, rfl, rfl, rfl, rfl⟩⟩

/-- Claim C7 counterexample.  Processing the identical completed OSC 7
report `/home` twice in a row emits `cwdChanged` both times — two
emissions, not at most one: the source assigns `m_cwd` and emits
unconditionally, never comparing against the previous value. -/
theorem onOsc_repeated_report_double_emit :
    (onOsc umId engFresh 7 fragSlash).2
        = [Emission.cwdChanged ['/', 'h', 'o', 'm', 'e']]
    ∧ (onOsc umId (onOsc umId engFresh 7 fragSlash).1 7 fragSlash).2
        = [Emission.cwdChanged ['/', 'h', 'o', 'm', 'e']]
    ∧ ¬ (((onOsc umId engFresh 7 fragSlash).2
          ++ (onOsc umId (onOsc umId engFresh 7 fragSlash).1 7 fragSlash).2).length
          ≤ 1) := by
  decide

/-- Claim C7 (corrected).  Every completed OSC 7 report that resolves (here
the verbatim absolute-path branch) emits `cwdChanged` with the resolved
value whenever signals are not suppressed, regardless of whether the value
differs from the previously known working directory; in particular the
same self-contained report processed twice in a row emits twice. -/
theorem onOsc_always_emits (um : UrlModel) (st : EngineState) (frag : Fragment)
    (hsup : st.suppressSignals = false) (hini : frag.initial = true)
    (hfin : frag.final = true)
    (hnotfile : qStartsWith fileUriScheme (qTrimmed frag.str) = false)
    (hnonempty : (qTrimmed frag.str).isEmpty = false)
    (hslash : qStartsWith ['/'] (qTrimmed frag.str) = true) :
    (onOsc um st 7 frag).2 = [Emission.cwdChanged (qTrimmed frag.str)]
    ∧ (onOsc um (onOsc um st 7 frag).1 7 frag).2
        = [Emission.cwdChanged (qTrimmed frag.str)] := by
  have h1 : onOsc um st 7 frag
      = ({ st with oscBuffer := frag.str, cwd := qTrimmed frag.str },
         [Emission.cwdChanged (qTrimmed frag.str)]) := by
    simp [onOsc, hini, hfin, hnotfile, hnonempty, hslash, hsup]
  refine ⟨by rw [h1], ?_⟩
  rw [h1]
  simp [onOsc, hini, hfin, hnotfile, hnonempty, hslash, hsup]

/-- Witness for C7's amended theorem at the concrete `/home` report. -/
theorem onOsc_always_emits_witness :
    (engFresh.suppressSignals = false ∧ fragSlash.initial = true
      ∧ fragSlash.final = true
      ∧ qStartsWith fileUriScheme (qTrimmed fragSlash.str) = false
      ∧ (qTrimmed fragSlash.str).isEmpty = false
      ∧ qStartsWith ['/'] (qTrimmed fragSlash.str) = true)
    ∧ ((onOsc umId engFresh 7 fragSlash).2
          = [Emission.cwdChanged (qTrimmed fragSlash.str)]
      ∧ (onOsc umId (onOsc umId engFresh 7 fragSlash).1 7 fragSlash).2
          = [Emission.cwdChanged (qTrimmed fragSlash.str)]) :=
  ⟨⟨rfl, rfl, rfl, by decide, by decide, by decide⟩,
   onOsc_always_emits umId engFresh fragSlash rfl rfl rfl
     (by decide) (by decide) (by decide)⟩

theorem normalizeSel_comm (A B : Point) (h : A ≠ B) :
    normalizeSel A B = normalizeSel B A := by
  have hx : A.x ≠ B.x ∨ A.y ≠ B.y := by
    by_contra hc
    push_neg at hc
    exact h (Point.ext hc.1 hc.2)
  unfold normalizeSel
  by_cases h1 : A.y > B.y ∨ (A.y = B.y ∧ A.x > B.x)
  · rw [if_pos h1, if_neg (by omega : ¬ (B.y > A.y ∨ (B.y = A.y ∧ B.x > A.x)))]
  · rw [if_neg h1, if_pos (by omega : B.y > A.y ∨ (B.y = A.y ∧ B.x > A.x))]

/-- Claim C8 (confirmed).  For distinct endpoints `A ≠ B` and any fixed
screen/scrollback content, `selectedText()` after `setSelection(A, B)`
equals `selectedText()` after `setSelection(B, A)`: both the sentinel
check and the row-then-column normalization are symmetric in the two
endpoints. -/
theorem selectedText_symm (st : ScreenState) (A B : Point) (h : A ≠ B) :
    selectedText st (setSelection st A B).1
      = selectedText st (setSelection st B A).1 := by
  simp only [selectedText, setSelection]
  by_cases hA : A.x = -1 <;> by_cases hB : B.x = -1 <;>
    simp [hA, hB, normalizeSel_comm A B h]

/-- Witness for C8: the selection (0,0)–(1,0) on `scrW` extracts the same
text in either endpoint order. -/
theorem selectedText_symm_witness :
    (⟨0, 0⟩ : Point) ≠ ⟨1, 0⟩
    ∧ selectedText scrW (setSelection scrW ⟨0, 0⟩ ⟨1, 0⟩).1
        = selectedText scrW (setSelection scrW ⟨1, 0⟩ ⟨0, 0⟩).1 :=
  ⟨by decide, selectedText_symm scrW ⟨0, 0⟩ ⟨1, 0⟩ (by decide)⟩

theorem onOsc_suppressed (um : UrlModel) (st : EngineState) (command : Int)
    (frag : Fragment) (hsup : st.suppressSignals = true) :
    (onOsc um st command frag).2 = []
    ∧ (onOsc um st command frag).1.suppressSignals = true := by
  simp only [onOsc]
  split_ifs <;> simp [hsup]

theorem applyEvent_suppressed (um : UrlModel) (st : EngineState) (ev : VtermEvent)
    (hsup : st.suppressSignals = true) :
    (applyEvent um st ev).2 = []
    ∧ (applyEvent um st ev).1.suppressSignals = true := by
  cases ev with
  | damage r => simp [applyEvent, hsup]
  | moveRect d s => simp [applyEvent, hsup]
  | moveCursor row col visible => simp [applyEvent, hsup]
  | setProp k b n s =>
      cases k <;> simp [applyEvent, setPropState, setPropEmits, hsup]
  | bellEvent => simp [applyEvent, hsup]
  | pushLine line =>
      by_cases hA : st.altScreen <;> simp [applyEvent, pushScrollback, hA, hsup]
  | popLine cols =>
      by_cases hE : st.scrollback.isEmpty <;>
        simp [applyEvent, popScrollback, hE, hsup]
  | oscFrag command frag => exact onOsc_suppressed um st command frag hsup

theorem applyEvents_suppressed (um : UrlModel) (evs : List VtermEvent) :
    ∀ st : EngineState, st.suppressSignals = true →
      (applyEvents um st evs).2 = []
      ∧ (applyEvents um st evs).1.suppressSignals = true := by
  induction evs with
  | nil => intro st h; exact ⟨rfl, h⟩
  | cons ev evs ih =>
      intro st h
      have h1 := applyEvent_suppressed um st ev h
      have h2 := ih (applyEvent um st ev).1 h1.2
      refine ⟨?_, ?_⟩ <;> simp [applyEvents, h1.1, h2.1, h2.2]

theorem replayRun_succ (um : UrlModel) (fuel : Nat) (s : Session)
    (resetEvents : List VtermEvent) (openOk : Bool) :
    replayRun um (fuel + 1) s resetEvents openOk
      = (if (processLogReplayStep um s resetEvents openOk).1.pendingLogReplay = none
            ∧ (processLogReplayStep um s resetEvents openOk).1.replayFile = none
         then (processLogReplayStep um s resetEvents openOk).2
         else (processLogReplayStep um s resetEvents openOk).2
           ++ replayRun um fuel (processLogReplayStep um s resetEvents openOk).1
                resetEvents openOk) := rfl

theorem step_chunk (um : UrlModel) (s : Session) (resetEvents : List VtermEvent)
    (openOk : Bool) (c : List VtermEvent) (rest : List (List VtermEvent))
    (hp : s.pendingLogReplay = none) (hf : s.replayFile = some (c :: rest)) :
    processLogReplayStep um s resetEvents openOk
      = ({ s with
            engine := (applyEvents um s.engine c).1,
            replayFile := some rest },
         (applyEvents um s.engine c).2) := by
  simp [processLogReplayStep, hp, hf]

theorem step_finish (um : UrlModel) (s : Session) (resetEvents : List VtermEvent)
    (openOk : Bool)
    (hp : s.pendingLogReplay = none) (hf : s.replayFile = some []) :
    processLogReplayStep um s resetEvents openOk
      = ({ s with
            replayFile := none, restoring := false,
            engine := { s.engine with suppressSignals := false } },
         [Emission.scrollbackChanged,
          Emission.contentChanged ⟨0, 0, s.cols, s.rows⟩]) := by
  simp [processLogReplayStep, hp, hf]

theorem replayRun_drain (um : UrlModel) (rest : List (List VtermEvent)) :
    ∀ (s : Session) (resetEvents : List VtermEvent) (openOk : Bool) (fuel : Nat),
      rest.length + 1 ≤ fuel →
      s.pendingLogReplay = none → s.replayFile = some rest →
      s.engine.suppressSignals = true →
      replayRun um fuel s resetEvents openOk
        = [Emission.scrollbackChanged,
           Emission.contentChanged ⟨0, 0, s.cols, s.rows⟩] := by
  induction rest with
  | nil =>
      intro s resetEvents openOk fuel hfuel hp hf hsup
      cases fuel with
      | zero => omega
      | succ n =>
          rw [replayRun_succ, step_finish um s resetEvents openOk hp hf]
          simp [hp]
  | cons c rest ih =>
      intro s resetEvents openOk fuel hfuel hp hf hsup
      cases fuel with
      | zero => simp only [List.length_cons] at hfuel; omega
      | succ n =>
          rw [replayRun_succ, step_chunk um s resetEvents openOk c rest hp hf]
          have hev := applyEvents_suppressed um c s.engine hsup
          have hrec := ih { s with
              engine := (applyEvents um s.engine c).1,
              replayFile := some rest } resetEvents openOk n
            (by simp only [List.length_cons] at hfuel; omega) hp rfl hev.2
          rw [if_neg (by simp)]
          simp only [hev.1, List.nil_append]
          exact hrec

theorem step_open_nil (um : UrlModel) (s : Session) (resetEvents : List VtermEvent)
    (hp : s.pendingLogReplay = some []) (hf : s.replayFile = none) :
    (processLogReplayStep um s resetEvents true).2
      = [Emission.scrollbackChanged,
         Emission.contentChanged ⟨0, 0, s.cols, s.rows⟩,
         Emission.scrollbackChanged,
         Emission.contentChanged ⟨0, 0, s.cols, s.rows⟩]
    ∧ (processLogReplayStep um s resetEvents true).1.pendingLogReplay = none
    ∧ (processLogReplayStep um s resetEvents true).1.replayFile = none := by
  have hL1 := applyEvents_suppressed um resetEvents
    { s.engine with suppressSignals := true } rfl
  simp [processLogReplayStep, resetTerminalS, clearScrollbackS, hp, hf, hL1.1]

theorem step_open_cons (um : UrlModel) (s : Session)
    (resetEvents c : List VtermEvent) (rest : List (List VtermEvent))
    (hp : s.pendingLogReplay = some (c :: rest)) (hf : s.replayFile = none) :
    (processLogReplayStep um s resetEvents true).2
      = [Emission.scrollbackChanged,
         Emission.contentChanged ⟨0, 0, s.cols, s.rows⟩]
    ∧ (processLogReplayStep um s resetEvents true).1.pendingLogReplay = none
    ∧ (processLogReplayStep um s resetEvents true).1.replayFile = some rest
    ∧ (processLogReplayStep um s resetEvents true).1.engine.suppressSignals = true
    ∧ (processLogReplayStep um s resetEvents true).1.cols = s.cols
    ∧ (processLogReplayStep um s resetEvents true).1.rows = s.rows := by
  have hL1 := applyEvents_suppressed um resetEvents
    { s.engine with suppressSignals := true } rfl
  have hc1 : ∀ st : EngineState, st.suppressSignals = true →
      (applyEvents um st c).2 = [] :=
    fun st h => (applyEvents_suppressed um c st h).1
  have hc2 : ∀ st : EngineState, st.suppressSignals = true →
      (applyEvents um st c).1.suppressSignals = true :=
    fun st h => (applyEvents_suppressed um c st h).2
  simp [processLogReplayStep, resetTerminalS, clearScrollbackS, hp, hf,
    hL1.1, hL1.2, hc1, hc2]

/-- Claim C6 (corrected).  During replay every VT-callback-driven change
notification is suppressed, but the suppression is not total: the
`resetTerminal()` performed on entering replay itself emits one
scrollback-changed and one full-rect content-changed notification, and on
completion one more scrollback-changed plus one full-rect content-changed
are emitted — four notifications in total, with none in between. -/
theorem replay_trace_batches (um : UrlModel) (s : Session)
    (chunks : List (List VtermEvent)) (resetEvents : List VtermEvent)
    (hp : s.pendingLogReplay = some chunks) (hf : s.replayFile = none) :
    replayRun um (chunks.length + 2) s resetEvents true
      = [Emission.scrollbackChanged,
         Emission.contentChanged ⟨0, 0, s.cols, s.rows⟩,
         Emission.scrollbackChanged,
         Emission.contentChanged ⟨0, 0, s.cols, s.rows⟩] := by
  cases chunks with
  | nil =>
      have hstep := step_open_nil um s resetEvents hp hf
      rw [show ([] : List (List VtermEvent)).length + 2 = 1 + 1 from rfl,
        replayRun_succ, if_pos ⟨hstep.2.1, hstep.2.2⟩, hstep.1]
  | cons c rest =>
      have hstep := step_open_cons um s resetEvents c rest hp hf
      have hdrain := replayRun_drain um rest
        (processLogReplayStep um s resetEvents true).1 resetEvents true
        (rest.length + 2) (by omega) hstep.2.1 hstep.2.2.1 hstep.2.2.2.1
      rw [show (c :: rest).length + 2 = (rest.length + 2) + 1 from rfl,
        replayRun_succ, if_neg (by simp [hstep.2.2.1]), hstep.1, hdrain,
        hstep.2.2.2.2.1, hstep.2.2.2.2.2]
      rfl

/-- Claim C6 counterexample.  Running the replay of `sessReplay` to
completion emits four notifications — scrollback-changed and full
content-changed already at replay entry (from the initial
`resetTerminal()`), then the same two again at completion — not just the
single final batch the claim allows. -/
theorem replay_not_single_batch :
    ¬ (replayRun umId 3 sessReplay [] true
        = [Emission.scrollbackChanged,
           Emission.contentChanged ⟨0, 0, 80, 24⟩]) := by
  decide

/-- Witness for C6's amended theorem on the concrete `sessReplay` run. -/
theorem replay_trace_batches_witness :
    (sessReplay.pendingLogReplay = some [[VtermEvent.damage ⟨0, 0, 1, 1⟩]]
      ∧ sessReplay.replayFile = none)
    ∧ replayRun umId (([[VtermEvent.damage ⟨0, 0, 1, 1⟩]] :
          List (List VtermEvent)).length + 2) sessReplay [] true
        = [Emission.scrollbackChanged,
           Emission.contentChanged ⟨0, 0, 80, 24⟩,
           Emission.scrollbackChanged,
           Emission.contentChanged ⟨0, 0, 80, 24⟩] :=
  ⟨⟨rfl, rfl⟩,
   replay_trace_batches umId sessReplay [[VtermEvent.damage ⟨0, 0, 1, 1⟩]] []
     rfl rfl⟩

end KodoTerm
